import Mathlib

/-!
# Yamanote Station Finder — verification of the diagnostic/recommendation core

Shallow embedding of the two service classes of the repository
(`src/backend/src/services/DiagnosticService.ts` and
`src/backend/src/services/RecommendationService.ts`) over exact rational
arithmetic, together with theorems settling the specification's claims.

JavaScript `number` is modelled as `ℚ`; `Date` timestamps as `ℕ`;
`Map` objects as insertion-ordered association lists with
update-in-place-or-append `set` semantics; a method that mutates the
service's session map and may `throw` is modelled as a function returning
the final session map together with an `Except` outcome.
-/

namespace Yamanote

/-- The six literals of the TS union type `QuestionCategory`
(`src/backend/src/types/index.ts`). -/
inductive QuestionCategory where
  | housing
  | transport
  | commercial
  | culture
  | price
  | priority
deriving DecidableEq, Repr

/-- TS interface `QuestionOption`. -/
structure QuestionOption where
  id : String
  text : String
  value : ℚ
  tags : List String
deriving DecidableEq, Repr

/-- TS interface `Question`. -/
structure Question where
  id : String
  category : QuestionCategory
  text : String
  options : List QuestionOption
  weight : ℚ
deriving DecidableEq, Repr

/-- The `features` record of a `Station` (TS interface `StationFeatures`). -/
structure StationFeatures where
  rentLevel : ℚ
  familyFriendly : ℚ
  quietness : ℚ
  accessibility : ℚ
  connections : List String
  walkability : ℚ
  shopping : ℚ
  restaurants : ℚ
  convenience : ℚ
  entertainment : ℚ
  history : ℚ
  nightlife : ℚ
  costOfLiving : ℚ
  diningCost : ℚ
deriving DecidableEq, Repr

/-- TS interface `Station` (the `location`, `description` and optional
`rentPrices` fields are never read by the two services under
verification and are omitted). -/
structure Station where
  id : String
  name : String
  nameEn : String
  features : StationFeatures
deriving DecidableEq, Repr

/-- TS interface `Answer`; `timestamp : Date` is modelled as a natural
number supplied by the caller (`new Date()` is ambient wall-clock input). -/
structure Answer where
  questionId : String
  selectedOption : String
  timestamp : ℕ
deriving DecidableEq, Repr

/-- A record of one rational per substantive category: the shape shared by
the `preferences` and `categoryWeights` objects of TS `UserProfile`. -/
structure CategoryValues where
  housing : ℚ
  transport : ℚ
  commercial : ℚ
  culture : ℚ
  price : ℚ
deriving DecidableEq, Repr

/-- Read the field of a `CategoryValues` record selected by a category, as in
`preferences[question.category as keyof typeof preferences]`.  The `priority`
case is unreachable in the services (guarded by
`question.category === 'priority'` checks) and returns 0. -/
def CategoryValues.get (v : CategoryValues) : QuestionCategory → ℚ
  | .housing => v.housing
  | .transport => v.transport
  | .commercial => v.commercial
  | .culture => v.culture
  | .price => v.price
  | .priority => 0

/-- Write the field of a `CategoryValues` record selected by a category; the
unreachable `priority` case leaves the record unchanged. -/
def CategoryValues.set (v : CategoryValues) : QuestionCategory → ℚ → CategoryValues
  | .housing, x => { v with housing := x }
  | .transport, x => { v with transport := x }
  | .commercial, x => { v with commercial := x }
  | .culture, x => { v with culture := x }
  | .price, x => { v with price := x }
  | .priority, _ => v

/-- TS interface `UserProfile`. -/
structure UserProfile where
  preferences : CategoryValues
  priorities : List String
  categoryWeights : CategoryValues
  answers : List Answer
deriving DecidableEq, Repr

/-- TS interface `RecommendationExplanation`. -/
structure RecommendationExplanation where
  matchingFeatures : List String
  strengths : List String
  considerations : List String
deriving DecidableEq, Repr

/-- TS interface `Recommendation`. -/
structure Recommendation where
  station : Station
  score : ℚ
  rank : ℕ
  explanation : RecommendationExplanation
deriving DecidableEq, Repr

/-! ## JavaScript primitives used by the services -/

/-- JS `String.prototype.includes`: substring containment. -/
def jsIncludes (s pat : String) : Bool := decide (pat.data <:+: s.data)

/-- JS `Math.round`: rounds half towards positive infinity. -/
def jsRound (x : ℚ) : ℤ := ⌊x + 1/2⌋

/-- JS `Math.round(x * 100) / 100`: rounding to two decimal places. -/
def round2 (x : ℚ) : ℚ := (jsRound (x * 100) : ℚ) / 100

/-- JS `Map.prototype.get` on an insertion-ordered association list. -/
def mapGet {β : Type} (m : List (String × β)) (k : String) : Option β :=
  (m.find? (·.1 == k)).map (·.2)

/-- JS `Map.prototype.has`. -/
def mapHas {β : Type} (m : List (String × β)) (k : String) : Bool :=
  m.any (·.1 == k)

/-- JS `Map.prototype.set`: updates the value in place when the key is
present (keeping its insertion position), appends otherwise.  A JS `Map`
never holds a key twice, and every map in this development is built from
`[]` by `mapSet`, so replacing the first occurrence is the same as
replacing the unique one. -/
def mapSet {β : Type} : List (String × β) → String → β → List (String × β)
  | [], k, v => [(k, v)]
  | p :: m, k, v => if p.1 == k then (k, v) :: m else p :: mapSet m k v

/-! ## RecommendationService (`RecommendationService.ts`) -/

/-- Embeds `RecommendationService.calculateCategoryScore` (lines 142–149):
average of the feature values scaled by `userPreference / 5`. -/
def calculateCategoryScore (userPreference : ℚ) (featureValues : List ℚ) : ℚ :=
  let avgFeatureValue := featureValues.foldl (· + ·) (0 : ℚ) / (featureValues.length : ℚ)
  avgFeatureValue * (userPreference / 5)

/-- The `priorityMappings` lookup table of
`RecommendationService.calculatePriorityBonus` (lines 162–174). -/
def priorityMappings (features : StationFeatures) (priority : String) : Option ℚ :=
  if priority = "family-friendly" then some (features.familyFriendly * 2)
  else if priority = "quiet" then some (features.quietness * 2)
  else if priority = "affordable" then some ((6 - features.costOfLiving) * 2)
  else if priority = "shopping" then some (features.shopping * 2)
  else if priority = "nightlife" then some (features.nightlife * 2)
  else if priority = "entertainment" then some (features.entertainment * 2)
  else if priority = "accessible" then some (features.accessibility * 2)
  else if priority = "walkable" then some (features.walkability * 2)
  else if priority = "restaurants" then some (features.restaurants * 2)
  else if priority = "history" then some (features.history * 2)
  else if priority = "convenient" then some (features.convenience * 2)
  else none

/-- Embeds `RecommendationService.calculatePriorityBonus` (lines 157–185): sums the
mapped bonus of the first three priority tags, capped at 20. -/
def calculatePriorityBonus (priorities : List String) (station : Station) : ℚ :=
  let bonus := (priorities.take 3).foldl
    (fun bonus priority =>
      match priorityMappings station.features priority with
      | some v => bonus + v
      | none => bonus) 0
  min 20 bonus

/-- The base-score part of `RecommendationService.calculateStationScore`
(lines 44–128): the weighted category accumulation and the `× 20`
normalization.  The accumulator pair is `(totalScore, totalWeight)`. -/
def calculateBaseScore (userProfile : UserProfile) (station : Station) : ℚ :=
  let preferences := userProfile.preferences
  let categoryWeights := userProfile.categoryWeights
  let features := station.features
  let acc : ℚ × ℚ := (0, 0)
  let acc :=
    if preferences.housing > 0 then
      let housingScore := calculateCategoryScore preferences.housing
        [features.familyFriendly, features.quietness]
      let weight := preferences.housing * categoryWeights.housing
      (acc.1 + housingScore * weight, acc.2 + weight)
    else acc
  let acc :=
    if preferences.transport > 0 then
      let transportScore := calculateCategoryScore preferences.transport
        [features.accessibility, min 5 (features.connections.length : ℚ)]
      let weight := preferences.transport * categoryWeights.transport
      (acc.1 + transportScore * weight, acc.2 + weight)
    else acc
  let acc :=
    if preferences.commercial > 0 then
      let commercialScore := calculateCategoryScore preferences.commercial
        [features.shopping, features.restaurants, features.convenience]
      let weight := preferences.commercial * categoryWeights.commercial
      (acc.1 + commercialScore * weight, acc.2 + weight)
    else acc
  let acc :=
    if preferences.culture > 0 then
      let cultureScore := calculateCategoryScore preferences.culture
        [features.entertainment, features.history, features.nightlife]
      let weight := preferences.culture * categoryWeights.culture
      (acc.1 + cultureScore * weight, acc.2 + weight)
    else acc
  let acc :=
    if preferences.price > 0 then
      let combinedPriceWeight := max categoryWeights.price categoryWeights.housing
      let priceBoostMultiplier := if categoryWeights.price ≥ 3.0 then 1.5 else 1.0
      let priceScore := calculateCategoryScore preferences.price
        [6 - features.rentLevel, 6 - features.costOfLiving, 6 - features.diningCost]
      let weight := preferences.price * combinedPriceWeight * priceBoostMultiplier
      (acc.1 + priceScore * weight, acc.2 + weight)
    else acc
  if acc.2 > 0 then acc.1 / acc.2 * 20 else 0

/-- Embeds `RecommendationService.calculateStationScore` (lines 33–134):
`Math.min(100, Math.max(0, baseScore + priorityBonus))`. -/
def calculateStationScore (userProfile : UserProfile) (station : Station) : ℚ :=
  min 100 (max 0
    (calculateBaseScore userProfile station
      + calculatePriorityBonus userProfile.priorities station))

/-- Embeds `RecommendationService.calculateScores` (lines 15–25): builds the
`Map<string, number>` of station id to compatibility score. -/
def calculateScores (userProfile : UserProfile) (stations : List Station) :
    List (String × ℚ) :=
  stations.foldl
    (fun scores station =>
      mapSet scores station.id (calculateStationScore userProfile station)) []

/-- The shared ranking step of `generateRecommendations` and
`generateFullRanking` (lines 198–201 and 232–235): pair each station with
`scores.get(station.id) || 0` and stable-sort descending by score
(JS `Array.prototype.sort` is stable; the comparator is
`(a, b) => b.score - a.score`). -/
def sortedStationScores (userProfile : UserProfile) (stations : List Station) :
    List (Station × ℚ) :=
  let scores := calculateScores userProfile stations
  (stations.map
    (fun station => (station, (mapGet scores station.id).getD 0))).mergeSort
    (fun a b => decide (b.2 ≤ a.2))

/-- Embeds `RecommendationService.explainRecommendation` (lines 264–392).  Each of
the three output lists is the concatenation, in source push order, of the
conditional contributions of the five per-category analysis blocks, the
priority-alignment loop (strengths only) and the final generic
consideration. -/
def explainRecommendation (station : Station) (userProfile : UserProfile) :
    RecommendationExplanation :=
  let features := station.features
  let preferences := userProfile.preferences
  let priorities := userProfile.priorities
  let matchingFeatures : List String :=
    (if preferences.housing > 3 then
      (if features.familyFriendly ≥ 4 then ["family-friendly environment"] else []) ++
      (if features.quietness ≥ 4 then ["quiet residential area"] else []) ++
      (if features.rentLevel ≤ 2 then ["affordable housing"] else [])
    else []) ++
    (if preferences.transport > 3 then
      (if features.accessibility ≥ 4 then ["excellent accessibility"] else []) ++
      (if features.walkability ≥ 4 then ["walkable area"] else []) ++
      (if features.connections.length ≥ 3 then ["multiple train lines"] else [])
    else []) ++
    (if preferences.commercial > 3 then
      (if features.shopping ≥ 4 then ["excellent shopping"] else []) ++
      (if features.restaurants ≥ 4 then ["diverse dining options"] else []) ++
      (if features.convenience ≥ 4 then ["convenient daily shopping"] else [])
    else []) ++
    (if preferences.culture > 3 then
      (if features.entertainment ≥ 4 then ["rich entertainment"] else []) ++
      (if features.history ≥ 4 then ["historical significance"] else []) ++
      (if features.nightlife ≥ 4 then ["vibrant nightlife"] else [])
    else []) ++
    (if preferences.price > 3 then
      (if features.costOfLiving ≤ 2 then ["affordable living costs"] else []) ++
      (if features.diningCost ≤ 2 then ["affordable dining"] else [])
    else [])
  let strengths : List String :=
    (if preferences.housing > 3 then
      (if features.familyFriendly ≥ 4 then
        [station.name ++ "は家族連れに優しい環境が整っています"] else []) ++
      (if features.quietness ≥ 4 then
        [station.name ++ "は静かな住宅地として知られています"] else []) ++
      (if features.rentLevel ≤ 2 then
        [station.name ++ "周辺は比較的手頃な家賃で住むことができます"] else [])
    else []) ++
    (if preferences.transport > 3 then
      (if features.accessibility ≥ 4 then
        [station.name ++ "は交通アクセスが非常に良好です"] else []) ++
      (if features.walkability ≥ 4 then
        [station.name ++ "周辺は徒歩での移動がしやすい環境です"] else []) ++
      (if features.connections.length ≥ 3 then
        [station.name ++ "は複数の路線が利用できて便利です"] else [])
    else []) ++
    (if preferences.commercial > 3 then
      (if features.shopping ≥ 4 then
        [station.name ++ "周辺にはショッピング施設が充実しています"] else []) ++
      (if features.restaurants ≥ 4 then
        [station.name ++ "には多様な飲食店が揃っています"] else []) ++
      (if features.convenience ≥ 4 then
        [station.name ++ "は日常の買い物に便利な立地です"] else [])
    else []) ++
    (if preferences.culture > 3 then
      (if features.entertainment ≥ 4 then
        [station.name ++ "周辺にはエンターテイメント施設が豊富です"] else []) ++
      (if features.history ≥ 4 then
        [station.name ++ "は歴史的な魅力のある地域です"] else []) ++
      (if features.nightlife ≥ 4 then
        [station.name ++ "は活気のあるナイトライフが楽しめます"] else [])
    else []) ++
    (if preferences.price > 3 then
      (if features.costOfLiving ≤ 2 then
        [station.name ++ "は生活コストが比較的抑えられます"] else []) ++
      (if features.diningCost ≤ 2 then
        [station.name ++ "周辺では手頃な価格で食事を楽しめます"] else [])
    else []) ++
    (priorities.take 3).foldl
      (fun acc priority =>
        if priority = "family-friendly" then
          if features.familyFriendly ≥ 4 then
            acc ++ ["あなたが重視する「家族向け」の環境が" ++ station.name ++ "には整っています"]
          else acc
        else if priority = "quiet" then
          if features.quietness ≥ 4 then
            acc ++ ["あなたが求める「静かな環境」が" ++ station.name ++ "で見つかります"]
          else acc
        else if priority = "affordable" then
          if features.costOfLiving ≤ 2 then
            acc ++ ["あなたが重視する「手頃な価格」の条件を" ++ station.name ++ "が満たしています"]
          else acc
        else if priority = "shopping" then
          if features.shopping ≥ 4 then
            acc ++ ["あなたが重視する「ショッピング」環境が" ++ station.name ++ "には充実しています"]
          else acc
        else if priority = "nightlife" then
          if features.nightlife ≥ 4 then
            acc ++ ["あなたが求める「ナイトライフ」が" ++ station.name ++ "で楽しめます"]
          else acc
        else acc) []
  let considerations : List String :=
    (if preferences.housing > 3 then
      (if features.rentLevel ≤ 2 then []
       else if features.rentLevel ≥ 4 then
         [station.name ++ "周辺の家賃は比較的高めです"]
       else [])
    else []) ++
    (if matchingFeatures.length = 0 then
      [station.name ++ "はバランスの取れた地域として推薦されました"]
    else [])
  { matchingFeatures := matchingFeatures
    strengths := strengths
    considerations := considerations }

/-- Embeds `RecommendationService.generateRecommendations` (lines 192–219):
top `min 3 n` of the sorted station/score pairs, with 1-based ranks,
two-decimal rounding and full explanations. -/
def generateRecommendations (userProfile : UserProfile) (stations : List Station) :
    List Recommendation :=
  let stationScores := sortedStationScores userProfile stations
  ((stationScores.take 3).enum).map
    (fun p =>
      { station := p.2.1
        score := round2 p.2.2
        rank := p.1 + 1
        explanation := explainRecommendation p.2.1 userProfile })

/-- Embeds `RecommendationService.generateFullRanking` (lines 226–256): every
station ranked, with empty explanation bundles. -/
def generateFullRanking (userProfile : UserProfile) (stations : List Station) :
    List Recommendation :=
  let stationScores := sortedStationScores userProfile stations
  (stationScores.enum).map
    (fun p =>
      { station := p.2.1
        score := round2 p.2.2
        rank := p.1 + 1
        explanation :=
          { matchingFeatures := []
            strengths := []
            considerations := [] } })

/-! ## DiagnosticService (`DiagnosticService.ts`) -/

/-- One entry of the `userSessions` map: the accumulated answers and the
optional cached profile. -/
structure Session where
  answers : List Answer
  profile : Option UserProfile
deriving DecidableEq, Repr

/-- The `userSessions : Map<string, {answers, profile?}>` field of
`DiagnosticService`. -/
abbrev Store := List (String × Session)

/-- The per-answer accumulation step of `getUserProfile` (lines 108–119):
adds `value × weight` to the category's preference numerator and `weight`
to its weight denominator; unknown questions, priority questions and
unknown options are skipped. -/
def accumAnswer (questions : List Question) (acc : CategoryValues × CategoryValues)
    (answer : Answer) : CategoryValues × CategoryValues :=
  match questions.find? (·.id == answer.questionId) with
  | none => acc
  | some question =>
    if question.category = .priority then acc
    else
      match question.options.find? (·.id == answer.selectedOption) with
      | none => acc
      | some selectedOption =>
        let weightedScore := selectedOption.value * question.weight
        (acc.1.set question.category (acc.1.get question.category + weightedScore),
         acc.2.set question.category (acc.2.get question.category + question.weight))

/-- The normalization step of `getUserProfile` (lines 121–126): divide each
category's accumulated preference by its accumulated weight when the
latter is positive. -/
def normalizePreferences (p w : CategoryValues) : CategoryValues where
  housing := if w.housing > 0 then p.housing / w.housing else p.housing
  transport := if w.transport > 0 then p.transport / w.transport else p.transport
  commercial := if w.commercial > 0 then p.commercial / w.commercial else p.commercial
  culture := if w.culture > 0 then p.culture / w.culture else p.culture
  price := if w.price > 0 then p.price / w.price else p.price

/-- The category-weight derivation of `getUserProfile` (lines 129–164):
all 1.0 without a `priority_01` answer; otherwise a 0.5 baseline adjusted
by sequential substring checks on the selected option id, with `"none"`
resetting everything to 1.0 last. -/
def deriveCategoryWeights (answers : List Answer) : CategoryValues :=
  match answers.find? (·.questionId == "priority_01") with
  | none => ⟨1.0, 1.0, 1.0, 1.0, 1.0⟩
  | some priorityAnswer =>
    let selectedOption := priorityAnswer.selectedOption
    let w : CategoryValues := ⟨0.5, 0.5, 0.5, 0.5, 0.5⟩
    let w := if jsIncludes selectedOption "housing" then
        { w with housing := 2.0, price := 2.0 } else w
    let w := if jsIncludes selectedOption "transport" then
        { w with transport := 2.0 } else w
    let w := if jsIncludes selectedOption "commercial" then
        { w with commercial := 2.0 } else w
    let w := if jsIncludes selectedOption "culture" then
        { w with culture := 2.0 } else w
    let w := if jsIncludes selectedOption "price" then
        { w with price := 3.0, housing := 2.5 } else w
    let w := if jsIncludes selectedOption "none" then
        ⟨1.0, 1.0, 1.0, 1.0, 1.0⟩ else w
    w

/-- The tag-priority extraction of `getUserProfile` (lines 166–190):
weight-summed tag tally in a `Map` (insertion-ordered), stable-sorted
descending by tally, first five tags kept. -/
def computePriorities (questions : List Question) (answers : List Answer) :
    List String :=
  let tagCounts : List (String × ℚ) := answers.foldl
    (fun tagCounts answer =>
      match questions.find? (·.id == answer.questionId) with
      | none => tagCounts
      | some question =>
        if question.category = .priority then tagCounts
        else
          match question.options.find? (·.id == answer.selectedOption) with
          | none => tagCounts
          | some selectedOption =>
            selectedOption.tags.foldl
              (fun tagCounts tag =>
                mapSet tagCounts tag ((mapGet tagCounts tag).getD 0 + question.weight))
              tagCounts) []
  ((tagCounts.mergeSort (fun a b => decide (b.2 ≤ a.2))).take 5).map (·.1)

/-- The profile computation of `DiagnosticService.getUserProfile`
(lines 87–198), as a pure function of the question catalog and the
session's answer list. -/
def computeProfileFromAnswers (questions : List Question) (answers : List Answer) :
    UserProfile :=
  let acc := answers.foldl (accumAnswer questions) (⟨0, 0, 0, 0, 0⟩, ⟨0, 0, 0, 0, 0⟩)
  { preferences := normalizePreferences acc.1 acc.2
    priorities := computePriorities questions answers
    categoryWeights := deriveCategoryWeights answers
    answers := answers }

/-- Embeds `DiagnosticService.submitAnswer` (lines 37–69).  The first component of
the result is the session map after the call (a thrown error still leaves
behind the session entry created for a previously unknown session id); the
second is the returned answer list or the thrown error message. -/
def submitAnswer (questions : List Question) (store : Store)
    (sessionId questionId selectedOptionId : String) (now : ℕ) :
    Store × Except String (List Answer) :=
  let store := if mapHas store sessionId then store
    else mapSet store sessionId ⟨[], none⟩
  let session := (mapGet store sessionId).getD ⟨[], none⟩
  match questions.find? (·.id == questionId) with
  | none =>
    (store, .error ("Question with id " ++ questionId ++ " not found"))
  | some question =>
    match question.options.find? (·.id == selectedOptionId) with
    | none =>
      (store, .error ("Option with id " ++ selectedOptionId ++
        " not found for question " ++ questionId))
    | some _ =>
      let answer : Answer :=
        { questionId := questionId, selectedOption := selectedOptionId, timestamp := now }
      let newAnswers := session.answers.filter (fun a => a.questionId ≠ questionId) ++ [answer]
      (mapSet store sessionId { session with answers := newAnswers }, .ok newAnswers)

/-- Embeds `DiagnosticService.getUserProfile` (lines 76–204): errors on an unknown
session, returns the cached profile when present, otherwise computes the
profile from the session's answers and caches it. -/
def getUserProfile (questions : List Question) (store : Store) (sessionId : String) :
    Store × Except String UserProfile :=
  match mapGet store sessionId with
  | none => (store, .error ("Session " ++ sessionId ++ " not found"))
  | some session =>
    match session.profile with
    | some profile => (store, .ok profile)
    | none =>
      let profile := computeProfileFromAnswers questions session.answers
      (mapSet store sessionId { session with profile := some profile }, .ok profile)

/-- Embeds `DiagnosticService.getAnswers` (lines 211–214): returns the session's
answers, or the empty list when the session does not exist. -/
def getAnswers (store : Store) (sessionId : String) : List Answer :=
  match mapGet store sessionId with
  | some session => session.answers
  | none => []

/-- Embeds `DiagnosticService.clearSession` (lines 220–222). -/
def clearSession (store : Store) (sessionId : String) : Store :=
  store.filter (fun p => p.1 ≠ sessionId)

/-! ## Concrete fixtures

Small concrete inputs used to instantiate the theorems below on closed
terms. -/

/-- A feature vector with top ratings and minimal costs. -/
def sampleFeatures : StationFeatures :=
  ⟨1, 5, 5, 5, ["x", "y", "z"], 5, 5, 5, 5, 5, 5, 5, 1, 1⟩

/-- A one-station candidate catalog entry. -/
def sampleStationA : Station := ⟨"A", "A", "A", sampleFeatures⟩

/-- A profile with every preference 5, balanced weights and no priorities. -/
def sampleProfile : UserProfile := ⟨⟨5, 5, 5, 5, 5⟩, [], ⟨1, 1, 1, 1, 1⟩, []⟩

/-- A housing question with two options of values 1 and 5 and weight 1. -/
def sampleQuestion : Question :=
  ⟨"q1", .housing, "q", [⟨"o1", "a", 1, []⟩, ⟨"o2", "b", 5, []⟩], 1⟩

/-- The per-session key-uniqueness invariant: every session's answer list
holds at most one answer per questionId. -/
def StoreNodupKeys (store : Store) : Prop :=
  ∀ p ∈ store, (p.2.answers.map Answer.questionId).Nodup

/-! ## Helper lemmas about the `Map` model -/

theorem mapHas_mapSet_self {β : Type} (m : List (String × β)) (k : String) (v : β) :
    mapHas (mapSet m k v) k = true := by
  induction m with
  | nil => simp [mapSet, mapHas]
  | cons q m ih =>
    by_cases hq : (q.1 == k) = true
    · simp [mapSet, mapHas, hq]
    · simpa [mapSet, mapHas, hq] using ih

theorem mapGet_mapSet_self {β : Type} (m : List (String × β)) (k : String) (v : β) :
    mapGet (mapSet m k v) k = some v := by
  induction m with
  | nil => simp [mapSet, mapGet, List.find?]
  | cons q m ih =>
    by_cases hq : (q.1 == k) = true
    · simp [mapSet, mapGet, List.find?, hq]
    · simpa [mapSet, mapGet, List.find?, hq] using ih

theorem mapGet_mapSet_ne {β : Type} (m : List (String × β)) (k k' : String) (v : β)
    (h : k' ≠ k) : mapGet (mapSet m k v) k' = mapGet m k' := by
  have hk : ¬ ((k : String) == k') = true := by simpa using fun e => h e.symm
  induction m with
  | nil => simp [mapSet, mapGet, List.find?, hk]
  | cons q m ih =>
    by_cases hq : (q.1 == k) = true
    · have hq' : ¬ (q.1 == k') = true := by
        simp only [beq_iff_eq] at hq ⊢
        rw [hq]; exact fun e => h e.symm
      simp [mapSet, mapGet, List.find?, hq, hq', hk]
    · by_cases hq' : (q.1 == k') = true
      · simp [mapSet, mapGet, List.find?, hq, hq']
      · simpa [mapSet, mapGet, List.find?, hq, hq'] using ih

theorem mem_of_mapGet_eq_some {β : Type} {m : List (String × β)} {k : String} {v : β}
    (h : mapGet m k = some v) : ∃ k', (k', v) ∈ m := by
  unfold mapGet at h
  rcases Option.map_eq_some'.mp h with ⟨p, hp, rfl⟩
  exact ⟨p.1, by simpa using List.mem_of_find?_eq_some hp⟩

theorem mem_mapSet {β : Type} {m : List (String × β)} {k : String} {v : β} {p : String × β}
    (h : p ∈ mapSet m k v) : p ∈ m ∨ p.2 = v := by
  induction m with
  | nil => simp only [mapSet, List.mem_singleton] at h; exact Or.inr (by rw [h])
  | cons q m ih =>
    by_cases hq : (q.1 == k) = true
    · simp only [mapSet, hq, if_true, List.mem_cons] at h
      rcases h with rfl | h'
      · exact Or.inr rfl
      · exact Or.inl (List.mem_cons_of_mem _ h')
    · simp only [mapSet, if_neg hq, List.mem_cons] at h
      cases h with
      | inl h0 => exact Or.inl (by rw [h0]; exact List.mem_cons_self _ _)
      | inr h' =>
        cases ih h' with
        | inl h'' => exact Or.inl (List.mem_cons_of_mem _ h'')
        | inr h'' => exact Or.inr h''

theorem mapGet_eq_none_of_mapHas_false {β : Type} {m : List (String × β)} {k : String}
    (h : mapHas m k = false) : mapGet m k = none := by
  simp only [mapHas, List.any_eq_false, Bool.not_eq_true] at h
  have hfind : m.find? (fun x => x.1 == k) = none := by
    rw [List.find?_eq_none]
    intro x hx
    simp [h x hx]
  simp [mapGet, hfind]

theorem mapHas_true_of_mapGet_eq_some {β : Type} {m : List (String × β)} {k : String} {v : β}
    (h : mapGet m k = some v) : mapHas m k = true := by
  by_contra hc
  rw [mapGet_eq_none_of_mapHas_false (Bool.not_eq_true _ ▸ hc)] at h
  exact Option.noConfusion h

theorem mapSet_mapSet {β : Type} (m : List (String × β)) (k : String) (v w : β) :
    mapSet (mapSet m k v) k w = mapSet m k w := by
  induction m with
  | nil => simp [mapSet]
  | cons q m ih =>
    by_cases hq : (q.1 == k) = true
    · simp [mapSet, hq]
    · simp [mapSet, hq, ih]

/-! ## Bounds of the compatibility score (claim C1) -/

theorem calculateStationScore_nonneg (userProfile : UserProfile) (station : Station) :
    0 ≤ calculateStationScore userProfile station := by
  unfold calculateStationScore
  exact le_min (by norm_num) (le_max_left 0 _)

theorem calculateStationScore_le_100 (userProfile : UserProfile) (station : Station) :
    calculateStationScore userProfile station ≤ 100 :=
  min_le_left _ _

theorem mem_calculateScores {userProfile : UserProfile} {stations : List Station}
    {p : String × ℚ} (h : p ∈ calculateScores userProfile stations) :
    ∃ s, p.2 = calculateStationScore userProfile s := by
  unfold calculateScores at h
  suffices H : ∀ (l : List Station) (m : List (String × ℚ)),
      (∀ q ∈ m, ∃ s, q.2 = calculateStationScore userProfile s) →
      p ∈ l.foldl (fun scores station =>
        mapSet scores station.id (calculateStationScore userProfile station)) m →
      ∃ s, p.2 = calculateStationScore userProfile s by
    exact H stations [] (by simp) h
  intro l
  induction l with
  | nil => intro m hm hp; exact hm p hp
  | cons t l ih =>
    intro m hm hp
    refine ih _ ?_ hp
    intro q hq
    rcases mem_mapSet hq with h' | h'
    · exact hm q h'
    · exact ⟨t, h'⟩

/-- Claim C1: for every user profile and every station in the candidate
catalog, the compatibility score computed by `calculateStationScore` (and
hence every value in the map returned by `calculateScores`) is a number in
the closed interval [0,100], equal to
`clamp(baseScore + priorityBonus, 0, 100)`. -/
theorem C1_station_score_clamped_in_range (userProfile : UserProfile)
    (stations : List Station) (station : Station) :
    calculateStationScore userProfile station =
      min 100 (max 0 (calculateBaseScore userProfile station +
        calculatePriorityBonus userProfile.priorities station)) ∧
    0 ≤ calculateStationScore userProfile station ∧
    calculateStationScore userProfile station ≤ 100 ∧
    ∀ p ∈ calculateScores userProfile stations, 0 ≤ p.2 ∧ p.2 ≤ 100 := by
  refine ⟨rfl, calculateStationScore_nonneg _ _, calculateStationScore_le_100 _ _, ?_⟩
  intro p hp
  rcases mem_calculateScores hp with ⟨s, hs⟩
  rw [hs]
  exact ⟨calculateStationScore_nonneg _ _, calculateStationScore_le_100 _ _⟩

/-- Witness for C1: the score map of a one-station catalog, at its only
entry. -/
theorem C1_station_score_clamped_in_range_witness :
    0 ≤ (("A" : String), calculateStationScore sampleProfile sampleStationA).2 ∧
    (("A" : String), calculateStationScore sampleProfile sampleStationA).2 ≤ 100 :=
  (C1_station_score_clamped_in_range sampleProfile [sampleStationA] sampleStationA).2.2.2
    ("A", calculateStationScore sampleProfile sampleStationA)
    (by simp [calculateScores, mapSet, sampleStationA])

/-! ## Category-record lemmas (for the profile claims) -/

theorem CategoryValues.get_zero (c : QuestionCategory) :
    (⟨0, 0, 0, 0, 0⟩ : CategoryValues).get c = 0 := by
  cases c <;> rfl

theorem CategoryValues.get_set_self (v : CategoryValues) (c : QuestionCategory) (x : ℚ)
    (hc : c ≠ .priority) : (v.set c x).get c = x := by
  cases c <;> first | rfl | exact absurd rfl hc

theorem CategoryValues.get_set_ne (v : CategoryValues) (c c' : QuestionCategory) (x : ℚ)
    (h : c' ≠ c) : (v.set c x).get c' = v.get c' := by
  cases c <;> cases c' <;> first | rfl | exact absurd rfl h

theorem normalizePreferences_get (p w : CategoryValues) (c : QuestionCategory)
    (hc : c ≠ .priority) :
    (normalizePreferences p w).get c =
      if w.get c > 0 then p.get c / w.get c else p.get c := by
  cases c <;> rfl

/-- Claim C4: for every session whose retained answer list contains exactly one
answer, to a substantive (non-priority) question Q with selected option O,
the computed profile satisfies `preferences[Q.category] == O.value` exactly
(since `(O.value × Q.weight) / Q.weight = O.value`), and every category with
zero answers has preference 0. -/
theorem C4_single_answer_normalization (questions : List Question) (answer : Answer)
    (Q : Question) (O : QuestionOption)
    (hq : questions.find? (·.id == answer.questionId) = some Q)
    (hcat : Q.category ≠ .priority)
    (hopt : Q.options.find? (·.id == answer.selectedOption) = some O)
    (hw : 0 < Q.weight) :
    (computeProfileFromAnswers questions [answer]).preferences.get Q.category = O.value ∧
    ∀ c, c ≠ Q.category → c ≠ .priority →
      (computeProfileFromAnswers questions [answer]).preferences.get c = 0 := by
  have hacc : ([answer].foldl (accumAnswer questions)
      (⟨0, 0, 0, 0, 0⟩, ⟨0, 0, 0, 0, 0⟩) : CategoryValues × CategoryValues) =
      ((⟨0, 0, 0, 0, 0⟩ : CategoryValues).set Q.category
         ((⟨0, 0, 0, 0, 0⟩ : CategoryValues).get Q.category + O.value * Q.weight),
       (⟨0, 0, 0, 0, 0⟩ : CategoryValues).set Q.category
         ((⟨0, 0, 0, 0, 0⟩ : CategoryValues).get Q.category + Q.weight)) := by
    simp only [List.foldl, accumAnswer, hq, hopt, if_neg hcat]
  have hpref : (computeProfileFromAnswers questions [answer]).preferences =
      normalizePreferences
        ((⟨0, 0, 0, 0, 0⟩ : CategoryValues).set Q.category (0 + O.value * Q.weight))
        ((⟨0, 0, 0, 0, 0⟩ : CategoryValues).set Q.category (0 + Q.weight)) := by
    simp only [computeProfileFromAnswers, hacc, CategoryValues.get_zero]
  constructor
  · rw [hpref, normalizePreferences_get _ _ _ hcat,
      CategoryValues.get_set_self _ _ _ hcat, CategoryValues.get_set_self _ _ _ hcat]
    rw [if_pos (by linarith)]
    rw [zero_add, zero_add]
    exact mul_div_cancel_right₀ O.value (ne_of_gt hw)
  · intro c hcne hcpri
    rw [hpref, normalizePreferences_get _ _ _ hcpri,
      CategoryValues.get_set_ne _ _ _ _ hcne, CategoryValues.get_set_ne _ _ _ _ hcne,
      CategoryValues.get_zero]
    simp

/-- Witness for C4: one answer selecting the value-5 option of the weight-1
housing question yields housing preference 5 and price preference 0. -/
theorem C4_single_answer_normalization_witness :
    (computeProfileFromAnswers [sampleQuestion]
      [⟨"q1", "o2", 0⟩]).preferences.get .housing = 5 ∧
    (computeProfileFromAnswers [sampleQuestion]
      [⟨"q1", "o2", 0⟩]).preferences.get .price = 0 := by
  have h := C4_single_answer_normalization [sampleQuestion] ⟨"q1", "o2", 0⟩
    sampleQuestion ⟨"o2", "b", 5, []⟩
    (by simp [sampleQuestion, List.find?])
    (by simp [sampleQuestion])
    (by simp [sampleQuestion, List.find?])
    (by norm_num [sampleQuestion])
  exact ⟨h.1, h.2 .price (by simp [sampleQuestion]) (by simp)⟩

/-- Claim C5: the categoryWeights preset table: all 1.0 without a priority
answer; with one, a 0.5 baseline with the selected token's boosts
(housing → housing 2.0 and price 2.0; transport/commercial/culture → that
category 2.0; price → price 3.0 and housing 2.5; "none" → all reset to
1.0, overriding the baseline). -/
theorem C5_category_weight_presets (questions : List Question) (answers : List Answer) :
    (answers.find? (·.questionId == "priority_01") = none →
      (computeProfileFromAnswers questions answers).categoryWeights = ⟨1, 1, 1, 1, 1⟩) ∧
    ∀ pa, answers.find? (·.questionId == "priority_01") = some pa →
      ((jsIncludes pa.selectedOption "housing" = true →
        jsIncludes pa.selectedOption "transport" = false →
        jsIncludes pa.selectedOption "commercial" = false →
        jsIncludes pa.selectedOption "culture" = false →
        jsIncludes pa.selectedOption "price" = false →
        jsIncludes pa.selectedOption "none" = false →
        (computeProfileFromAnswers questions answers).categoryWeights
          = ⟨2, 0.5, 0.5, 0.5, 2⟩) ∧
       (jsIncludes pa.selectedOption "transport" = true →
        jsIncludes pa.selectedOption "housing" = false →
        jsIncludes pa.selectedOption "commercial" = false →
        jsIncludes pa.selectedOption "culture" = false →
        jsIncludes pa.selectedOption "price" = false →
        jsIncludes pa.selectedOption "none" = false →
        (computeProfileFromAnswers questions answers).categoryWeights
          = ⟨0.5, 2, 0.5, 0.5, 0.5⟩) ∧
       (jsIncludes pa.selectedOption "commercial" = true →
        jsIncludes pa.selectedOption "housing" = false →
        jsIncludes pa.selectedOption "transport" = false →
        jsIncludes pa.selectedOption "culture" = false →
        jsIncludes pa.selectedOption "price" = false →
        jsIncludes pa.selectedOption "none" = false →
        (computeProfileFromAnswers questions answers).categoryWeights
          = ⟨0.5, 0.5, 2, 0.5, 0.5⟩) ∧
       (jsIncludes pa.selectedOption "culture" = true →
        jsIncludes pa.selectedOption "housing" = false →
        jsIncludes pa.selectedOption "transport" = false →
        jsIncludes pa.selectedOption "commercial" = false →
        jsIncludes pa.selectedOption "price" = false →
        jsIncludes pa.selectedOption "none" = false →
        (computeProfileFromAnswers questions answers).categoryWeights
          = ⟨0.5, 0.5, 0.5, 2, 0.5⟩) ∧
       (jsIncludes pa.selectedOption "price" = true →
        jsIncludes pa.selectedOption "housing" = false →
        jsIncludes pa.selectedOption "transport" = false →
        jsIncludes pa.selectedOption "commercial" = false →
        jsIncludes pa.selectedOption "culture" = false →
        jsIncludes pa.selectedOption "none" = false →
        (computeProfileFromAnswers questions answers).categoryWeights
          = ⟨2.5, 0.5, 0.5, 0.5, 3⟩) ∧
       (jsIncludes pa.selectedOption "none" = true →
        (computeProfileFromAnswers questions answers).categoryWeights
          = ⟨1, 1, 1, 1, 1⟩)) := by
  have hcw : (computeProfileFromAnswers questions answers).categoryWeights
      = deriveCategoryWeights answers := rfl
  constructor
  · intro hnone
    rw [hcw]
    unfold deriveCategoryWeights
    rw [hnone]
    norm_num
  · intro pa hpa
    refine ⟨?_, ?_, ?_, ?_, ?_, ?_⟩
    case _ =>
      intro h1 h2 h3 h4 h5 h6
      rw [hcw]; unfold deriveCategoryWeights; rw [hpa]
      simp only [h1, h2, h3, h4, h5, h6, if_true, if_false]
      norm_num
    case _ =>
      intro h1 h2 h3 h4 h5 h6
      rw [hcw]; unfold deriveCategoryWeights; rw [hpa]
      simp only [h1, h2, h3, h4, h5, h6, if_true, if_false]
      norm_num
    case _ =>
      intro h1 h2 h3 h4 h5 h6
      rw [hcw]; unfold deriveCategoryWeights; rw [hpa]
      simp only [h1, h2, h3, h4, h5, h6, if_true, if_false]
      norm_num
    case _ =>
      intro h1 h2 h3 h4 h5 h6
      rw [hcw]; unfold deriveCategoryWeights; rw [hpa]
      simp only [h1, h2, h3, h4, h5, h6, if_true, if_false]
      norm_num
    case _ =>
      intro h1 h2 h3 h4 h5 h6
      rw [hcw]; unfold deriveCategoryWeights; rw [hpa]
      simp only [h1, h2, h3, h4, h5, h6, if_true, if_false]
      norm_num
    case _ =>
      intro h1
      rw [hcw]; unfold deriveCategoryWeights; rw [hpa]
      simp only [h1, if_true]
      norm_num

/-- Witness for C5: a priority answer whose option id contains the token
`price` yields weights price 3.0, housing 2.5 and 0.5 elsewhere. -/
theorem C5_category_weight_presets_witness :
    (computeProfileFromAnswers [] [⟨"priority_01", "priority_price", 0⟩]).categoryWeights
      = ⟨2.5, 0.5, 0.5, 0.5, 3⟩ :=
  (((C5_category_weight_presets [] [⟨"priority_01", "priority_price", 0⟩]).2
      ⟨"priority_01", "priority_price", 0⟩
      (by simp [List.find?])).2.2.2.2.1)
    (by decide) (by decide) (by decide) (by decide) (by decide) (by decide)

/-! ## Session-store lemmas (for the DiagnosticService claims) -/

theorem storeNodupKeys_init (store : Store) (sid : String)
    (hinv : StoreNodupKeys store) :
    StoreNodupKeys (if mapHas store sid then store else mapSet store sid ⟨[], none⟩) := by
  by_cases h : mapHas store sid = true
  · simpa [h] using hinv
  · simp only [h, if_false]
    intro p hp
    rcases mem_mapSet hp with h' | h'
    · exact hinv p h'
    · rw [h']; simp

theorem sessionAnswers_nodup (store : Store) (sid : String)
    (hinv : StoreNodupKeys store) :
    ((((mapGet store sid).getD ⟨[], none⟩).answers.map Answer.questionId).Nodup) := by
  cases hget : mapGet store sid with
  | none => simp
  | some s =>
    rcases mem_of_mapGet_eq_some hget with ⟨k', hk'⟩
    simpa using hinv (k', s) hk'

theorem filtered_append_nodup {answers : List Answer} {qid oid : String} {t : ℕ}
    (h : (answers.map Answer.questionId).Nodup) :
    (((answers.filter (fun a : Answer => a.questionId ≠ qid) ++
      [Answer.mk qid oid t]).map Answer.questionId).Nodup) := by
  rw [List.map_append, List.nodup_append]
  refine ⟨?_, by simp, ?_⟩
  · exact h.sublist (List.Sublist.map _ (List.filter_sublist _))
  · intro x hx
    rcases List.mem_map.mp hx with ⟨a, ha, rfl⟩
    have := List.of_mem_filter ha
    simp only [decide_not, Bool.not_eq_true', decide_eq_false_iff_not] at this
    simpa using fun hmem => this (by simpa using hmem)

theorem submitAnswer_eq_of_found {questions : List Question} (store : Store)
    (sid : String) {qid oid : String} (t : ℕ) {q : Question} {o : QuestionOption}
    (hfq : questions.find? (·.id == qid) = some q)
    (hfo : q.options.find? (·.id == oid) = some o) :
    submitAnswer questions store sid qid oid t =
      (mapSet (if mapHas store sid then store
          else mapSet store sid (⟨[], none⟩ : Session)) sid
        (Session.mk ((((mapGet (if mapHas store sid then store
              else mapSet store sid (⟨[], none⟩ : Session)) sid).getD
            (⟨[], none⟩ : Session)).answers.filter
            (fun a : Answer => a.questionId ≠ qid)) ++ [Answer.mk qid oid t])
         (((mapGet (if mapHas store sid then store
              else mapSet store sid (⟨[], none⟩ : Session)) sid).getD
            (⟨[], none⟩ : Session)).profile)),
       .ok ((((mapGet (if mapHas store sid then store
              else mapSet store sid (⟨[], none⟩ : Session)) sid).getD
            (⟨[], none⟩ : Session)).answers.filter
            (fun a : Answer => a.questionId ≠ qid)) ++ [Answer.mk qid oid t])) := by
  simp only [submitAnswer, hfq, hfo]

theorem filter_replaced (answers : List Answer) (qid oid : String) (t : ℕ) :
    ((answers.filter (fun a : Answer => a.questionId ≠ qid) ++
        [Answer.mk qid oid t]).filter (fun a : Answer => a.questionId ≠ qid))
      = answers.filter (fun a : Answer => a.questionId ≠ qid) := by
  rw [List.filter_append, List.filter_filter]
  simp

/-- Claim C3: at most one answer per questionId is retained per session
(preserved by every `submitAnswer` call), and resubmitting an answer for
the same question replaces the prior one: after a successful submission
for question `qid`, submitting again for `qid` produces exactly the state
and answer list of a single direct submission, so a profile computed
afterwards reflects only the most recent option, with no blending. -/
theorem C3_last_write_wins (questions : List Question) (store : Store)
    (sid qid oid1 oid2 : String) (t1 t2 : ℕ)
    (hinv : StoreNodupKeys store) :
    StoreNodupKeys (submitAnswer questions store sid qid oid1 t1).1 ∧
    (∀ st1 as1, submitAnswer questions store sid qid oid1 t1 = (st1, .ok as1) →
      ∀ st2 as2, submitAnswer questions store sid qid oid2 t2 = (st2, .ok as2) →
        submitAnswer questions st1 sid qid oid2 t2 = (st2, .ok as2) ∧
        getUserProfile questions (submitAnswer questions st1 sid qid oid2 t2).1 sid
          = getUserProfile questions st2 sid) := by
  have hinv' := storeNodupKeys_init store sid hinv
  have hsess := sessionAnswers_nodup
    (if mapHas store sid then store else mapSet store sid ⟨[], none⟩)
    sid hinv'
  constructor
  · rcases hfq : questions.find? (·.id == qid) with _ | q
    · simpa [submitAnswer, hfq] using hinv'
    · rcases hfo : q.options.find? (·.id == oid1) with _ | o
      · simpa [submitAnswer, hfq, hfo] using hinv'
      · simp only [submitAnswer, hfq, hfo]
        intro p hp
        rcases mem_mapSet hp with h' | h'
        · exact hinv' p h'
        · rw [h']
          exact filtered_append_nodup hsess
  · intro st1 as1 hs1 st2 as2 hs2
    rcases hfq : questions.find? (·.id == qid) with _ | q
    · simp [submitAnswer, hfq] at hs1
    · rcases hfo2 : q.options.find? (·.id == oid2) with _ | o2
      · simp [submitAnswer, hfq, hfo2] at hs2
      · rcases hfo1 : q.options.find? (·.id == oid1) with _ | o1
        · simp [submitAnswer, hfq, hfo1] at hs1
        · rw [submitAnswer_eq_of_found store sid t1 hfq hfo1] at hs1
          rw [submitAnswer_eq_of_found store sid t2 hfq hfo2] at hs2
          set store0 := if mapHas store sid then store
            else mapSet store sid (⟨[], none⟩ : Session) with hstore0
          set S := (mapGet store0 sid).getD (⟨[], none⟩ : Session) with hS
          set F := S.answers.filter (fun a : Answer => a.questionId ≠ qid) with hF
          simp only [Prod.mk.injEq, Except.ok.injEq] at hs1 hs2
          obtain ⟨hst1, -⟩ := hs1
          obtain ⟨hst2, has2⟩ := hs2
          subst hst1
          subst hst2
          subst has2
          have hfirst : submitAnswer questions
              (mapSet store0 sid (Session.mk (F ++ [Answer.mk qid oid1 t1]) S.profile))
                sid qid oid2 t2
              = (mapSet store0 sid (Session.mk (F ++ [Answer.mk qid oid2 t2]) S.profile),
                 .ok (F ++ [Answer.mk qid oid2 t2])) := by
            rw [submitAnswer_eq_of_found
              (mapSet store0 sid (Session.mk (F ++ [Answer.mk qid oid1 t1]) S.profile))
              sid t2 hfq hfo2]
            simp [mapHas_mapSet_self, mapGet_mapSet_self, mapSet_mapSet, hF,
              filter_replaced]
          exact ⟨hfirst, by rw [hfirst]⟩

/-- Witness for C3: submitting option o1 then o2 for the same question of a
fresh session leaves a single retained answer — the state of a direct o2
submission. -/
theorem C3_last_write_wins_witness :
    submitAnswer [sampleQuestion]
        (submitAnswer [sampleQuestion] [] "s" "q1" "o1" 0).1 "s" "q1" "o2" 1
      = ([("s", ⟨[⟨"q1", "o2", 1⟩], none⟩)], .ok [⟨"q1", "o2", 1⟩]) := by
  have hsub1 : submitAnswer [sampleQuestion] [] "s" "q1" "o1" 0
      = ([("s", ⟨[⟨"q1", "o1", 0⟩], none⟩)], .ok [⟨"q1", "o1", 0⟩]) := by
    simp [submitAnswer, sampleQuestion, List.find?, mapGet, mapHas, mapSet, List.filter]
  have hsub2 : submitAnswer [sampleQuestion] [] "s" "q1" "o2" 1
      = ([("s", ⟨[⟨"q1", "o2", 1⟩], none⟩)], .ok [⟨"q1", "o2", 1⟩]) := by
    simp [submitAnswer, sampleQuestion, List.find?, mapGet, mapHas, mapSet, List.filter]
  have h := (C3_last_write_wins [sampleQuestion] [] "s" "q1" "o1" "o2" 0 1
    (by intro p hp; simp at hp)).2
    [("s", ⟨[⟨"q1", "o1", 0⟩], none⟩)] [⟨"q1", "o1", 0⟩] hsub1
    [("s", ⟨[⟨"q1", "o2", 1⟩], none⟩)] [⟨"q1", "o2", 1⟩] hsub2
  rw [hsub1]
  exact h.1

theorem mapGet_none_iff_mapHas_false {β : Type} {m : List (String × β)} {k : String} :
    mapGet m k = none ↔ mapHas m k = false := by
  simp [mapGet, mapHas, List.find?_eq_none, List.any_eq_false, Option.map_eq_none']

/-- Claim C7: once a profile has been computed for a session, a second
`getUserProfile` with no intervening change returns the very same cached
profile and leaves the store untouched — it is not recomputed. -/
theorem C7_cached_profile_stable (questions : List Question) (store : Store)
    (sid : String) (p : UserProfile) (st1 : Store)
    (h : getUserProfile questions store sid = (st1, .ok p)) :
    getUserProfile questions st1 sid = (st1, .ok p) := by
  cases hget : mapGet store sid with
  | none => simp [getUserProfile, hget] at h
  | some sess =>
    cases hprof : sess.profile with
    | some q =>
      simp only [getUserProfile, hget, hprof] at h
      simp only [Prod.mk.injEq, Except.ok.injEq] at h
      obtain ⟨h1, h2⟩ := h
      subst h1
      subst h2
      simp only [getUserProfile, hget, hprof]
    | none =>
      simp only [getUserProfile, hget, hprof] at h
      simp only [Prod.mk.injEq, Except.ok.injEq] at h
      obtain ⟨h1, h2⟩ := h
      subst h1
      subst h2
      simp only [getUserProfile, mapGet_mapSet_self]

/-- Witness for C7: a session whose profile is already cached returns it
unchanged. -/
theorem C7_cached_profile_stable_witness :
    getUserProfile [sampleQuestion] [("s", Session.mk [] (some sampleProfile))] "s"
      = ([("s", Session.mk [] (some sampleProfile))], .ok sampleProfile) :=
  C7_cached_profile_stable [sampleQuestion] [("s", Session.mk [] (some sampleProfile))]
    "s" sampleProfile [("s", Session.mk [] (some sampleProfile))]
    (by simp [getUserProfile, mapGet, List.find?])

/-- Counterexample to **C8** as stated: a `getAnswers` read of a session the
store has no record of does not surface an error — it returns the empty
list, silently treating the unknown session as empty. -/
theorem C8_counterexample_getAnswers_silent :
    mapGet ([] : Store) "nope" = none ∧ getAnswers ([] : Store) "nope" = [] :=
  ⟨rfl, rfl⟩

/-- Claim C8 (amended): for an unknown sessionId, `getUserProfile` surfaces a
session-not-found error, but `getAnswers` does not: it silently returns
the empty answer list. -/
theorem C8_amended_unknown_session (questions : List Question) (store : Store)
    (sid : String) (h : mapGet store sid = none) :
    getUserProfile questions store sid
      = (store, .error ("Session " ++ sid ++ " not found")) ∧
    getAnswers store sid = [] := by
  constructor
  · simp [getUserProfile, h]
  · simp [getAnswers, h]

/-- Witness for the amended C8, on the empty store. -/
theorem C8_amended_unknown_session_witness :
    getUserProfile [] ([] : Store) "nope"
      = ([], .error ("Session " ++ "nope" ++ " not found")) ∧
    getAnswers ([] : Store) "nope" = [] :=
  C8_amended_unknown_session [] [] "nope" rfl

/-- Claim C10: a failed `submitAnswer` (unknown question, or unknown option)
leaves an already-existing session's state unchanged, but when the
sessionId was previously unknown it still creates an empty session entry,
so a subsequent `getUserProfile` succeeds and returns the all-zero
preferences profile instead of raising a session-not-found error. -/
theorem C10_failed_submit_creates_session (questions : List Question) (store : Store)
    (sid qid oid : String) (t : ℕ) (st1 : Store) (msg : String)
    (herr : submitAnswer questions store sid qid oid t = (st1, .error msg)) :
    (∀ sess, mapGet store sid = some sess → st1 = store) ∧
    (mapGet store sid = none →
      mapGet st1 sid = some (Session.mk [] none) ∧
      (getUserProfile questions st1 sid).2
        = .ok (computeProfileFromAnswers questions []) ∧
      (computeProfileFromAnswers questions []).preferences = ⟨0, 0, 0, 0, 0⟩) := by
  have hst1 : st1 = if mapHas store sid then store
      else mapSet store sid (⟨[], none⟩ : Session) := by
    rcases hfq : questions.find? (·.id == qid) with _ | q
    · simp only [submitAnswer, hfq] at herr
      simp only [Prod.mk.injEq] at herr
      exact herr.1.symm
    · rcases hfo : q.options.find? (·.id == oid) with _ | o
      · simp only [submitAnswer, hfq, hfo] at herr
        simp only [Prod.mk.injEq] at herr
        exact herr.1.symm
      · simp [submitAnswer, hfq, hfo] at herr
  constructor
  · intro sess hsess
    rw [hst1, if_pos (mapHas_true_of_mapGet_eq_some hsess)]
  · intro hnone
    have hhas : mapHas store sid = false := mapGet_none_iff_mapHas_false.mp hnone
    rw [hst1, if_neg (by simp [hhas])]
    refine ⟨mapGet_mapSet_self _ _ _, ?_, ?_⟩
    · simp only [getUserProfile, mapGet_mapSet_self]
    · simp [computeProfileFromAnswers, normalizePreferences]

/-- Witness for C10: submitting an unknown question id to a fresh session
of the empty store. -/
theorem C10_failed_submit_creates_session_witness :
    mapGet ((submitAnswer [] ([] : Store) "s" "nope" "x" 0).1) "s"
      = some (Session.mk [] none) ∧
    (getUserProfile [] ((submitAnswer [] ([] : Store) "s" "nope" "x" 0).1) "s").2
      = .ok (computeProfileFromAnswers [] []) := by
  have h := (C10_failed_submit_creates_session [] [] "s" "nope" "x" 0
    (submitAnswer [] ([] : Store) "s" "nope" "x" 0).1
    ("Question with id " ++ "nope" ++ " not found")
    (by simp [submitAnswer, List.find?])).2 rfl
  exact ⟨h.1, h.2.1⟩

/-- Counterexample to **C6** as stated: submit o1 (housing value 1), read
the profile (caching it), successfully submit o2 (housing value 5) for the
same question, read again.  The second read returns the profile computed
from the old answer list `[o1]` (housing preference 1) even though the
session's current answer list is `[o2]`, whose recomputation would give
housing preference 5 — `submitAnswer` never invalidates the cache. -/
theorem C6_counterexample_stale_cache :
    (getUserProfile [sampleQuestion]
        (submitAnswer [sampleQuestion]
          (getUserProfile [sampleQuestion]
            (submitAnswer [sampleQuestion] [] "s" "q1" "o1" 0).1 "s").1
          "s" "q1" "o2" 1).1 "s").2
      = .ok (computeProfileFromAnswers [sampleQuestion] [Answer.mk "q1" "o1" 0]) ∧
    (submitAnswer [sampleQuestion]
        (getUserProfile [sampleQuestion]
          (submitAnswer [sampleQuestion] [] "s" "q1" "o1" 0).1 "s").1
        "s" "q1" "o2" 1).2
      = .ok [Answer.mk "q1" "o2" 1] ∧
    getAnswers (submitAnswer [sampleQuestion]
        (getUserProfile [sampleQuestion]
          (submitAnswer [sampleQuestion] [] "s" "q1" "o1" 0).1 "s").1
        "s" "q1" "o2" 1).1 "s" = [Answer.mk "q1" "o2" 1] ∧
    (computeProfileFromAnswers [sampleQuestion]
      [Answer.mk "q1" "o1" 0]).preferences.housing = 1 ∧
    (computeProfileFromAnswers [sampleQuestion]
      [Answer.mk "q1" "o2" 1]).preferences.housing = 5 ∧
    computeProfileFromAnswers [sampleQuestion] [Answer.mk "q1" "o1" 0]
      ≠ computeProfileFromAnswers [sampleQuestion] [Answer.mk "q1" "o2" 1] := by
  have hsub1 : submitAnswer [sampleQuestion] [] "s" "q1" "o1" 0
      = ([("s", Session.mk [Answer.mk "q1" "o1" 0] none)], .ok [Answer.mk "q1" "o1" 0]) := by
    simp [submitAnswer, sampleQuestion, List.find?, mapGet, mapHas, mapSet, List.filter]
  have hget1 : getUserProfile [sampleQuestion]
      [("s", Session.mk [Answer.mk "q1" "o1" 0] none)] "s"
      = ([("s", Session.mk [Answer.mk "q1" "o1" 0]
            (some (computeProfileFromAnswers [sampleQuestion] [Answer.mk "q1" "o1" 0])))],
         .ok (computeProfileFromAnswers [sampleQuestion] [Answer.mk "q1" "o1" 0])) := by
    simp [getUserProfile, mapGet, mapSet, List.find?]
  have hsub2 : submitAnswer [sampleQuestion]
      [("s", Session.mk [Answer.mk "q1" "o1" 0]
        (some (computeProfileFromAnswers [sampleQuestion] [Answer.mk "q1" "o1" 0])))]
      "s" "q1" "o2" 1
      = ([("s", Session.mk [Answer.mk "q1" "o2" 1]
            (some (computeProfileFromAnswers [sampleQuestion] [Answer.mk "q1" "o1" 0])))],
         .ok [Answer.mk "q1" "o2" 1]) := by
    simp [submitAnswer, sampleQuestion, List.find?, mapGet, mapHas, mapSet, List.filter]
  have hget2 : getUserProfile [sampleQuestion]
      [("s", Session.mk [Answer.mk "q1" "o2" 1]
        (some (computeProfileFromAnswers [sampleQuestion] [Answer.mk "q1" "o1" 0])))] "s"
      = ([("s", Session.mk [Answer.mk "q1" "o2" 1]
            (some (computeProfileFromAnswers [sampleQuestion] [Answer.mk "q1" "o1" 0])))],
         .ok (computeProfileFromAnswers [sampleQuestion] [Answer.mk "q1" "o1" 0])) := by
    simp [getUserProfile, mapGet, List.find?]
  have hp1 : (computeProfileFromAnswers [sampleQuestion]
      [Answer.mk "q1" "o1" 0]).preferences.housing = 1 := by
    simp [computeProfileFromAnswers, accumAnswer, sampleQuestion, List.find?,
      normalizePreferences, CategoryValues.set, CategoryValues.get]
  have hp2 : (computeProfileFromAnswers [sampleQuestion]
      [Answer.mk "q1" "o2" 1]).preferences.housing = 5 := by
    simp [computeProfileFromAnswers, accumAnswer, sampleQuestion, List.find?,
      normalizePreferences, CategoryValues.set, CategoryValues.get]
  refine ⟨?_, ?_, ?_, hp1, hp2, ?_⟩
  · rw [hsub1]
    simp only []
    rw [hget1]
    simp only []
    rw [hsub2]
    simp only []
    rw [hget2]
  · rw [hsub1]
    simp only []
    rw [hget1]
    simp only []
    rw [hsub2]
  · rw [hsub1]
    simp only []
    rw [hget1]
    simp only []
    rw [hsub2]
    simp [getAnswers, mapGet, List.find?]
  · intro hcontra
    rw [show (computeProfileFromAnswers [sampleQuestion]
        [Answer.mk "q1" "o1" 0]).preferences.housing
        = (computeProfileFromAnswers [sampleQuestion]
            [Answer.mk "q1" "o2" 1]).preferences.housing from by rw [hcontra]] at hp1
    rw [hp2] at hp1
    norm_num at hp1

/-- Claim C6 (amended): submitting an answer does not invalidate the cached
profile.  If the session already has a cached profile, a `getUserProfile`
read after any `submitAnswer` call for that session returns that cached
profile unchanged; only when no profile has been cached yet does the read
compute the profile from the session's current answer list. -/
theorem C6_amended_cache_not_invalidated (questions : List Question) (store : Store)
    (sid qid oid : String) (t : ℕ) :
    (∀ sess p, mapGet store sid = some sess → sess.profile = some p →
      ∀ st1 r, submitAnswer questions store sid qid oid t = (st1, r) →
        getUserProfile questions st1 sid = (st1, .ok p)) ∧
    (∀ st1 as1, submitAnswer questions store sid qid oid t = (st1, .ok as1) →
      (∀ sess, mapGet store sid = some sess → sess.profile = none) →
      (getUserProfile questions st1 sid).2
        = .ok (computeProfileFromAnswers questions as1)) := by
  constructor
  · intro sess p hget hprof st1 r hsub
    have hhas : mapHas store sid = true := mapHas_true_of_mapGet_eq_some hget
    rcases hfq : questions.find? (·.id == qid) with _ | q
    · simp only [submitAnswer, hfq] at hsub
      simp only [Prod.mk.injEq] at hsub
      obtain ⟨h1, -⟩ := hsub
      rw [if_pos hhas] at h1
      subst h1
      simp only [getUserProfile, hget, hprof]
    · rcases hfo : q.options.find? (·.id == oid) with _ | o
      · simp only [submitAnswer, hfq, hfo] at hsub
        simp only [Prod.mk.injEq] at hsub
        obtain ⟨h1, -⟩ := hsub
        rw [if_pos hhas] at h1
        subst h1
        simp only [getUserProfile, hget, hprof]
      · rw [submitAnswer_eq_of_found store sid t hfq hfo] at hsub
        simp only [Prod.mk.injEq] at hsub
        obtain ⟨h1, -⟩ := hsub
        rw [if_pos hhas] at h1
        rw [hget] at h1
        simp only [Option.getD_some] at h1
        subst h1
        simp only [getUserProfile, mapGet_mapSet_self, hprof]
  · intro st1 as1 hsub hnoprof
    rcases hfq : questions.find? (·.id == qid) with _ | q
    · simp [submitAnswer, hfq] at hsub
    · rcases hfo : q.options.find? (·.id == oid) with _ | o
      · simp [submitAnswer, hfq, hfo] at hsub
      · rw [submitAnswer_eq_of_found store sid t hfq hfo] at hsub
        simp only [Prod.mk.injEq, Except.ok.injEq] at hsub
        obtain ⟨h1, h2⟩ := hsub
        have hprofnone : ((mapGet (if mapHas store sid then store
            else mapSet store sid (⟨[], none⟩ : Session)) sid).getD
              (⟨[], none⟩ : Session)).profile = none := by
          by_cases hhas : mapHas store sid = true
          · rw [if_pos hhas]
            cases hget : mapGet store sid with
            | none => simp
            | some sess => simpa [hget] using hnoprof sess hget
          · rw [if_neg hhas, mapGet_mapSet_self]
            simp
        rw [hprofnone] at h1
        subst h1
        subst h2
        simp only [getUserProfile, mapGet_mapSet_self]

/-- Witness for the amended C6: after submit–read–submit on a fresh
session, the read returns the cached profile of the old answer list, and a
fresh-session submit followed by a read computes from the submitted
answers. -/
theorem C6_amended_cache_not_invalidated_witness :
    getUserProfile [sampleQuestion]
        [("s", Session.mk [Answer.mk "q1" "o2" 1]
          (some (computeProfileFromAnswers [sampleQuestion] [Answer.mk "q1" "o1" 0])))] "s"
      = ([("s", Session.mk [Answer.mk "q1" "o2" 1]
            (some (computeProfileFromAnswers [sampleQuestion] [Answer.mk "q1" "o1" 0])))],
         .ok (computeProfileFromAnswers [sampleQuestion] [Answer.mk "q1" "o1" 0])) := by
  have h := (C6_amended_cache_not_invalidated [sampleQuestion]
    [("s", Session.mk [Answer.mk "q1" "o1" 0]
      (some (computeProfileFromAnswers [sampleQuestion] [Answer.mk "q1" "o1" 0])))]
    "s" "q1" "o2" 1).1
    (Session.mk [Answer.mk "q1" "o1" 0]
      (some (computeProfileFromAnswers [sampleQuestion] [Answer.mk "q1" "o1" 0])))
    (computeProfileFromAnswers [sampleQuestion] [Answer.mk "q1" "o1" 0])
    (by simp [mapGet, List.find?]) rfl
    [("s", Session.mk [Answer.mk "q1" "o2" 1]
      (some (computeProfileFromAnswers [sampleQuestion] [Answer.mk "q1" "o1" 0])))]
    (.ok [Answer.mk "q1" "o2" 1])
    (by simp [submitAnswer, sampleQuestion, List.find?, mapGet, mapHas, mapSet, List.filter])
  exact h

/-! ## Ranking lemmas (claims C2 and C9) -/

theorem leScore_trans (a b c : Station × ℚ) :
    decide (b.2 ≤ a.2) = true → decide (c.2 ≤ b.2) = true → decide (c.2 ≤ a.2) = true := by
  simp only [decide_eq_true_eq]
  exact fun h1 h2 => le_trans h2 h1

theorem leScore_total (a b : Station × ℚ) :
    (decide (b.2 ≤ a.2) || decide (a.2 ≤ b.2)) = true := by
  simp only [Bool.or_eq_true, decide_eq_true_eq]
  exact le_total b.2 a.2

theorem round2_mono {x y : ℚ} (h : x ≤ y) : round2 x ≤ round2 y := by
  unfold round2 jsRound
  rw [div_le_div_iff_of_pos_right (by norm_num : (0:ℚ) < 100)]
  exact_mod_cast Int.floor_le_floor (by linarith)

theorem foldl_mapSet_get_not_mem {f : Station → ℚ} {k : String} :
    ∀ (l : List Station) (m : List (String × ℚ)), (∀ s ∈ l, s.id ≠ k) →
      mapGet (l.foldl (fun m st => mapSet m st.id (f st)) m) k = mapGet m k := by
  intro l
  induction l with
  | nil => intro m _; rfl
  | cons t l ih =>
    intro m hne
    rw [List.foldl_cons, ih _ (fun s hs => hne s (List.mem_cons_of_mem _ hs))]
    exact mapGet_mapSet_ne _ _ _ _ (fun e => hne t (List.mem_cons_self _ _) e.symm)

theorem foldl_mapSet_get_mem {f : Station → ℚ} :
    ∀ (l : List Station) (m : List (String × ℚ)) (s : Station),
      (l.map Station.id).Nodup → s ∈ l →
      mapGet (l.foldl (fun m st => mapSet m st.id (f st)) m) s.id = some (f s) := by
  intro l
  induction l with
  | nil => intro m s _ hs; simp at hs
  | cons t l ih =>
    intro m s hnodup hs
    rw [List.map_cons, List.nodup_cons] at hnodup
    rw [List.foldl_cons]
    rcases List.mem_cons.mp hs with rfl | hs'
    · have hnotin : ∀ u ∈ l, u.id ≠ s.id := by
        intro u hu he
        exact hnodup.1 (he ▸ List.mem_map_of_mem _ hu)
      rw [foldl_mapSet_get_not_mem l _ hnotin]
      exact mapGet_mapSet_self _ _ _
    · exact ih _ s hnodup.2 hs'

theorem calculateScores_mapGet {userProfile : UserProfile} {stations : List Station}
    (hids : (stations.map Station.id).Nodup) {s : Station} (hs : s ∈ stations) :
    mapGet (calculateScores userProfile stations) s.id
      = some (calculateStationScore userProfile s) :=
  foldl_mapSet_get_mem stations [] s hids hs

theorem rankPairs_eq {userProfile : UserProfile} {stations : List Station}
    (hids : (stations.map Station.id).Nodup) :
    (stations.map
        (fun station => (station,
          (mapGet (calculateScores userProfile stations) station.id).getD 0)))
      = stations.map (fun s => (s, calculateStationScore userProfile s)) := by
  apply List.map_congr_left
  intro s hs
  rw [calculateScores_mapGet hids hs]
  rfl

theorem sortedStationScores_def (userProfile : UserProfile) (stations : List Station) :
    sortedStationScores userProfile stations
      = (stations.map
          (fun station => (station,
            (mapGet (calculateScores userProfile stations) station.id).getD 0))).mergeSort
          (fun a b => decide (b.2 ≤ a.2)) := rfl

theorem sortedStationScores_eq {userProfile : UserProfile} {stations : List Station}
    (hids : (stations.map Station.id).Nodup) :
    sortedStationScores userProfile stations
      = (stations.map (fun s => (s, calculateStationScore userProfile s))).mergeSort
          (fun a b => decide (b.2 ≤ a.2)) := by
  rw [sortedStationScores_def, rankPairs_eq hids]

theorem length_sortedStationScores (userProfile : UserProfile) (stations : List Station) :
    (sortedStationScores userProfile stations).length = stations.length := by
  rw [sortedStationScores_def, List.length_mergeSort, List.length_map]

theorem sortedStationScores_snd {userProfile : UserProfile} {stations : List Station}
    (hids : (stations.map Station.id).Nodup) {p : Station × ℚ}
    (hp : p ∈ sortedStationScores userProfile stations) :
    p.2 = calculateStationScore userProfile p.1 := by
  rw [sortedStationScores_eq hids] at hp
  rcases List.mem_map.mp (List.mem_mergeSort.mp hp) with ⟨s, _, rfl⟩
  rfl

theorem sortedStationScores_pairwise (userProfile : UserProfile) (stations : List Station) :
    (sortedStationScores userProfile stations).Pairwise (fun a b => b.2 ≤ a.2) := by
  rw [sortedStationScores_def]
  have h := @List.sorted_mergeSort (Station × ℚ)
    (fun a b : Station × ℚ => decide (b.2 ≤ a.2))
    leScore_trans leScore_total
    (stations.map
      (fun station => (station,
        (mapGet (calculateScores userProfile stations) station.id).getD 0)))
  exact h.imp (fun hab => by simpa using hab)

theorem sortedStationScores_fst_perm (userProfile : UserProfile) (stations : List Station) :
    ((sortedStationScores userProfile stations).map (·.1)).Perm stations := by
  rw [sortedStationScores_def]
  have h := (List.mergeSort_perm
    (stations.map
      (fun station => (station,
        (mapGet (calculateScores userProfile stations) station.id).getD 0)))
    (fun a b => decide (b.2 ≤ a.2))).map (·.1)
  rw [List.map_map] at h
  have h2 : (stations.map ((fun x : Station × ℚ => x.1) ∘ fun station =>
      (station, (mapGet (calculateScores userProfile stations) station.id).getD 0)))
      = stations := by
    have hcomp : ((fun x : Station × ℚ => x.1) ∘ fun station =>
        (station, (mapGet (calculateScores userProfile stations) station.id).getD 0))
        = id := rfl
    rw [hcomp, List.map_id]
  rwa [h2] at h

theorem pair_sublist_of_mem {α : Type} {a b : α} {l : List α}
    (ha : a ∈ l) (hb : b ∈ l) (hne : a ≠ b) :
    List.Sublist [a, b] l ∨ List.Sublist [b, a] l := by
  induction l with
  | nil => simp at ha
  | cons x t ih =>
    by_cases hax : a = x
    · subst hax
      have hbt : b ∈ t := by
        rcases List.mem_cons.mp hb with h | h
        · exact absurd h.symm hne
        · exact h
      exact Or.inl (List.Sublist.cons₂ a (List.singleton_sublist.mpr hbt))
    · by_cases hbx : b = x
      · subst hbx
        have hat : a ∈ t := by
          rcases List.mem_cons.mp ha with h | h
          · exact absurd h hax
          · exact h
        exact Or.inr (List.Sublist.cons₂ b (List.singleton_sublist.mpr hat))
      · have hat : a ∈ t := by
          rcases List.mem_cons.mp ha with h | h
          · exact absurd h hax
          · exact h
        have hbt : b ∈ t := by
          rcases List.mem_cons.mp hb with h | h
          · exact absurd h hbx
          · exact h
        rcases ih hat hbt with h | h
        · exact Or.inl (h.cons x)
        · exact Or.inr (h.cons x)

theorem eq_of_pair_sublist_both {α : Type} {a b : α} :
    ∀ {l : List α}, l.Nodup → List.Sublist [a, b] l → List.Sublist [b, a] l → a = b := by
  intro l
  induction l with
  | nil => intro _ h1 _; simp at h1
  | cons x t ih =>
    intro hnodup h1 h2
    rw [List.nodup_cons] at hnodup
    cases h1 with
    | cons _ h1' =>
      cases h2 with
      | cons _ h2' => exact ih hnodup.2 h1' h2'
      | cons₂ _ h2' =>
        exact absurd (h1'.subset (by simp)) hnodup.1
    | cons₂ _ h1' =>
      cases h2 with
      | cons _ h2' =>
        exact absurd (h2'.subset (by simp)) hnodup.1
      | cons₂ _ h2' => rfl

theorem generateRecommendations_def (userProfile : UserProfile) (stations : List Station) :
    generateRecommendations userProfile stations
      = (((sortedStationScores userProfile stations).take 3).enum).map
        (fun p =>
          { station := p.2.1
            score := round2 p.2.2
            rank := p.1 + 1
            explanation := explainRecommendation p.2.1 userProfile }) := rfl

theorem generateFullRanking_def (userProfile : UserProfile) (stations : List Station) :
    generateFullRanking userProfile stations
      = ((sortedStationScores userProfile stations).enum).map
        (fun p =>
          { station := p.2.1
            score := round2 p.2.2
            rank := p.1 + 1
            explanation :=
              { matchingFeatures := []
                strengths := []
                considerations := [] } }) := rfl

/-- Claim C2: `generateRecommendations` scores every candidate, stable-sorts
descending by score, and returns the first `min 3 n` entries: their count
is `min 3 n`, their ranks are exactly 1, 2, 3 in order, their scores are
non-increasing, each reported score is the raw compatibility score rounded
to two decimals, and entries with tied raw scores keep catalog order. -/
theorem C2_top3_ranking (userProfile : UserProfile) (stations : List Station)
    (hids : (stations.map Station.id).Nodup) :
    (generateRecommendations userProfile stations).length = min 3 stations.length ∧
    (∀ i (hi : i < (generateRecommendations userProfile stations).length),
      ((generateRecommendations userProfile stations).get ⟨i, hi⟩).rank = i + 1) ∧
    ((generateRecommendations userProfile stations).Pairwise
      (fun r1 r2 => r2.score ≤ r1.score)) ∧
    (∀ i (hi : i < (generateRecommendations userProfile stations).length),
      ((generateRecommendations userProfile stations).get ⟨i, hi⟩).score
        = round2 (calculateStationScore userProfile
            (((generateRecommendations userProfile stations).get ⟨i, hi⟩).station))) ∧
    (∀ a b : Station, a ≠ b →
      List.Sublist [a, b]
        ((generateRecommendations userProfile stations).map Recommendation.station) →
      calculateStationScore userProfile a = calculateStationScore userProfile b →
      List.Sublist [a, b] stations) := by
  refine ⟨?_, ?_, ?_, ?_, ?_⟩
  · rw [generateRecommendations_def, List.length_map, List.enum_length, List.length_take,
      length_sortedStationScores]
  · intro i hi
    simp [generateRecommendations_def, List.get_eq_getElem, List.getElem_map,
      List.getElem_enum]
  · rw [generateRecommendations_def, List.pairwise_map, List.pairwise_iff_getElem]
    intro i j hi hj hij
    simp only [List.getElem_enum]
    have hp := sortedStationScores_pairwise userProfile stations
    rw [List.pairwise_iff_getElem] at hp
    have hi0 : i < ((sortedStationScores userProfile stations).take 3).length := by
      simpa using hi
    have hj0 : j < ((sortedStationScores userProfile stations).take 3).length := by
      simpa using hj
    have hi2 : i < (sortedStationScores userProfile stations).length := by
      rw [List.length_take] at hi0
      exact lt_of_lt_of_le hi0 (min_le_right _ _)
    have hj2 : j < (sortedStationScores userProfile stations).length := by
      rw [List.length_take] at hj0
      exact lt_of_lt_of_le hj0 (min_le_right _ _)
    rw [List.getElem_take, List.getElem_take]
    exact round2_mono (hp i j hi2 hj2 hij)
  · intro i hi
    have hi0 : i < ((sortedStationScores userProfile stations).take 3).length := by
      simpa [generateRecommendations_def] using hi
    have hi2 : i < (sortedStationScores userProfile stations).length := by
      rw [List.length_take] at hi0
      exact lt_of_lt_of_le hi0 (min_le_right _ _)
    simp only [generateRecommendations_def, List.get_eq_getElem, List.getElem_map,
      List.getElem_enum]
    simp only [List.getElem_take]
    have hmem : (sortedStationScores userProfile stations).get ⟨i, hi2⟩
        ∈ sortedStationScores userProfile stations := List.get_mem _ _ hi2
    rw [List.get_eq_getElem] at hmem
    rw [sortedStationScores_snd hids hmem]
  · intro a b hne hsub heq
    have hmapst : (generateRecommendations userProfile stations).map Recommendation.station
        = ((sortedStationScores userProfile stations).take 3).map (·.1) := by
      apply List.ext_getElem
      · simp [generateRecommendations_def]
      · intro i h1 h2
        simp [generateRecommendations_def, List.getElem_map, List.getElem_enum]
    rw [hmapst] at hsub
    have hsub' : List.Sublist [a, b]
        ((sortedStationScores userProfile stations).map (·.1)) :=
      hsub.trans (List.Sublist.map _ (List.take_sublist _ _))
    have hperm := sortedStationScores_fst_perm userProfile stations
    have hndstations : stations.Nodup := List.Nodup.of_map _ hids
    have hnd : ((sortedStationScores userProfile stations).map (·.1)).Nodup :=
      (hperm.nodup_iff).mpr hndstations
    have hamem : a ∈ stations := hperm.subset (hsub'.subset (by simp))
    have hbmem : b ∈ stations := hperm.subset (hsub'.subset (by simp))
    rcases pair_sublist_of_mem hamem hbmem hne with hgood | hbad
    · exact hgood
    · exfalso
      have hmapg := List.Sublist.map
        (fun s => (s, calculateStationScore userProfile s)) hbad
      have hpw : List.Pairwise (fun p q : Station × ℚ => decide (q.2 ≤ p.2) = true)
          [(b, calculateStationScore userProfile b),
           (a, calculateStationScore userProfile a)] := by
        simp [heq]
      have hstable := List.sublist_mergeSort leScore_trans leScore_total hpw
        (by simpa using hmapg)
      rw [← sortedStationScores_eq hids] at hstable
      have hba : List.Sublist [b, a]
          ((sortedStationScores userProfile stations).map (·.1)) := by
        simpa using List.Sublist.map (·.1) hstable
      exact hne (eq_of_pair_sublist_both hnd hsub' hba)

/-- Witness for C2, on a one-station catalog. -/
theorem C2_top3_ranking_witness :
    ([sampleStationA].map Station.id).Nodup ∧
    (generateRecommendations sampleProfile [sampleStationA]).length
      = min 3 [sampleStationA].length :=
  ⟨by simp, (C2_top3_ranking sampleProfile [sampleStationA] (by simp)).1⟩

/-- Claim C9: `generateRecommendations` (top-3) and `generateFullRanking`
agree on the top-3 prefix: at each position of the recommendation list,
both carry the same station, the same rounded score, and the same rank;
the full ranking's entries carry empty explanation bundles. -/
theorem C9_top3_prefix_agreement (userProfile : UserProfile) (stations : List Station) :
    (generateRecommendations userProfile stations).length = min 3 stations.length ∧
    (generateFullRanking userProfile stations).length = stations.length ∧
    ∀ i (hi : i < (generateRecommendations userProfile stations).length)
      (hi' : i < (generateFullRanking userProfile stations).length),
      ((generateRecommendations userProfile stations).get ⟨i, hi⟩).station
        = ((generateFullRanking userProfile stations).get ⟨i, hi'⟩).station ∧
      ((generateRecommendations userProfile stations).get ⟨i, hi⟩).score
        = ((generateFullRanking userProfile stations).get ⟨i, hi'⟩).score ∧
      ((generateRecommendations userProfile stations).get ⟨i, hi⟩).rank
        = ((generateFullRanking userProfile stations).get ⟨i, hi'⟩).rank ∧
      ((generateFullRanking userProfile stations).get ⟨i, hi'⟩).explanation
        = ⟨[], [], []⟩ := by
  refine ⟨?_, ?_, ?_⟩
  · rw [generateRecommendations_def, List.length_map, List.enum_length, List.length_take,
      length_sortedStationScores]
  · rw [generateFullRanking_def, List.length_map, List.enum_length,
      length_sortedStationScores]
  · intro i hi hi'
    refine ⟨?_, ?_, ?_, ?_⟩ <;>
      simp [generateRecommendations_def, generateFullRanking_def, List.get_eq_getElem,
        List.getElem_map, List.getElem_enum, List.getElem_take]

/-- Witness for C9, at position 0 of a one-station catalog. -/
theorem C9_top3_prefix_agreement_witness :
    ((generateRecommendations sampleProfile [sampleStationA]).get
        ⟨0, by simp [generateRecommendations_def, length_sortedStationScores]⟩).rank
      = ((generateFullRanking sampleProfile [sampleStationA]).get
        ⟨0, by simp [generateFullRanking_def, length_sortedStationScores]⟩).rank ∧
    ((generateFullRanking sampleProfile [sampleStationA]).get
        ⟨0, by simp [generateFullRanking_def, length_sortedStationScores]⟩).explanation
      = ⟨[], [], []⟩ := by
  have h := (C9_top3_prefix_agreement sampleProfile [sampleStationA]).2.2 0
    (by simp [generateRecommendations_def, length_sortedStationScores])
    (by simp [generateFullRanking_def, length_sortedStationScores])
  exact ⟨h.2.2.1, h.2.2.2⟩

end Yamanote
